import Mathlib

/-!
Verification of the `cloud-storage` crate (Google Cloud Storage client).

The development shallowly embeds the crate's pure request-construction and
response-decoding logic.  The resource modules under `src/resources/` are
embedded from the source; the response envelope (`GoogleResponse`, defined in
`src/error.rs`) and the shared list wrapper (`resources/common.rs`) are not
part of the provided sources and are modelled from the specification where
noted.  HTTP transmission and header acquisition are abstracted as an
environment of `Except`-valued oracles, so that each `async` operation becomes
a total function of that environment.
-/

namespace CloudStorage

/-- A JSON value, the wire form of every request and response body.
Numbers are modelled as integers (no claim depends on fractional values). -/
inductive Json where
  | null : Json
  | bool (b : Bool) : Json
  | num (n : Int) : Json
  | str (s : String) : Json
  | arr (elems : List Json) : Json
  | obj (fields : List (String × Json)) : Json

/-- Look up the first binding of `key` in a JSON object's field list. -/
def jsonLookup (key : String) : List (String × Json) → Option Json
  | [] => none
  | (k, v) :: rest => if k == key then some v else jsonLookup key rest

/-- Extract a JSON string. -/
def getStr : Json → Option String
  | .str s => some s
  | _ => none

/-- Extract a JSON number. -/
def getNum : Json → Option Int
  | .num n => some n
  | _ => none

/-- serde semantics for a required `String` field. -/
def reqStrField (key : String) (fields : List (String × Json)) : Option String :=
  (jsonLookup key fields).bind getStr

/-- serde semantics for an `Option<String>` field: a missing field or an
explicit `null` decodes to `none`; any other non-string value fails. -/
def optStrField (key : String) (fields : List (String × Json)) : Option (Option String) :=
  match jsonLookup key fields with
  | none => some none
  | some .null => some none
  | some (.str s) => some (some s)
  | some _ => none

/-- The structured error detail carried by a failed response envelope.
Modelled from the spec: `ErrorDetail` is "a numeric status code, a
human-readable message, and a list of per-field error reasons"
(`src/error.rs` is not among the provided sources). -/
structure ErrorDetail where
  code : Int
  message : String
  errors : List Json

/-- Modelled from the spec: decode the inner `error` object of the vendor's
error envelope — a numeric `code`, a string `message`, and an optional
`errors` array of per-field reasons. -/
def decodeErrorDetail : Json → Option ErrorDetail
  | .obj fields =>
    match (jsonLookup "code" fields).bind getNum,
          (jsonLookup "message" fields).bind getStr with
    | some code, some message =>
      some ⟨code, message,
            match jsonLookup "errors" fields with
            | some (.arr xs) => xs
            | _ => []⟩
    | _, _ => none
  | _ => none

/-- Modelled from the spec: a body matches the error schema exactly when it is
an object whose `"error"` member decodes as an `ErrorDetail`. -/
def decodeErrorEnvelope : Json → Option ErrorDetail
  | .obj fields => (jsonLookup "error" fields).bind decodeErrorDetail
  | _ => none

/-- The crate's error type. Modelled from the spec taxonomy of section 7
together with the variants named in the sources (`Error::Google`,
`Error::MissingServiceAccount`, `Error::Other`); `src/error.rs` itself is not
among the provided sources. `decode` stands for a response body that does not
match the expected shape (reqwest's `.json()` failing). -/
inductive Err where
  | google (e : ErrorDetail) : Err
  | missingServiceAccount : Err
  | decode : Err
  | transport : Err
  | auth : Err
  | other (msg : String) : Err

/-- The response envelope: a success payload or a structured error, never
both.  Modelled from the spec: "`ResponseEnvelope<T>` is a tagged union of
`Success(T)` or `Error(ErrorDetail)`" (`src/error.rs` not in sources). -/
inductive GoogleResponse (T : Type) where
  | success (t : T) : GoogleResponse T
  | error (e : ErrorDetail) : GoogleResponse T

/-- Modelled from the spec, section 4.2: "parse the body as a generic JSON
value first; if it contains an `error` object matching the error schema,
decode that branch; otherwise decode the remaining JSON as T." -/
def decodeGoogleResponse {T : Type} (dec : Json → Option T) (j : Json) :
    Option (GoogleResponse T) :=
  match decodeErrorEnvelope j with
  | some e => some (.error e)
  | none => (dec j).map .success

/-- `GoogleResponse::into_result`: success becomes `Ok`, an error detail
becomes `Err(Error::Google(e))`. Modelled from the spec (the per-resource
sources all dispatch through it). -/
def GoogleResponse.intoResult {T : Type} : GoogleResponse T → Except Err T
  | .success s => .ok s
  | .error e => .error (.google e)

/-- The entity holding a permission. The variants and their wire forms are
the ones enumerated in the doc comments of the `entity` fields in the
sources (`user-…`, `group-…`, `domain-…`, `project-team-…`, `allUsers`,
`allAuthenticatedUsers`); the `Display`/`Deserialize` implementation lives in
`resources/common.rs`, which is not among the provided sources, and is
modelled from those forms. -/
inductive Entity where
  | user (id : String) : Entity
  | group (id : String) : Entity
  | domain (d : String) : Entity
  | projectTeam (p : String) : Entity
  | allUsers : Entity
  | allAuthenticatedUsers : Entity

/-- The `Display` rendering of an entity, used when it is interpolated into a
request path. Modelled from the spec and the entity-form doc comments. -/
def Entity.render : Entity → String
  | .user id => "user-" ++ id
  | .group id => "group-" ++ id
  | .domain d => "domain-" ++ d
  | .projectTeam p => "project-team-" ++ p
  | .allUsers => "allUsers"
  | .allAuthenticatedUsers => "allAuthenticatedUsers"

/-- Modelled from the spec: parse an entity's wire string back into its
variant (case-sensitive fixed forms). -/
def parseEntity (s : String) : Option Entity :=
  if s == "allUsers" then some .allUsers
  else if s == "allAuthenticatedUsers" then some .allAuthenticatedUsers
  else if s.startsWith "user-" then some (.user (s.drop 5))
  else if s.startsWith "group-" then some (.group (s.drop 6))
  else if s.startsWith "domain-" then some (.domain (s.drop 7))
  else if s.startsWith "project-team-" then some (.projectTeam (s.drop 13))
  else none

/-- The access permission for an entity. Defined in `resources/common.rs`
(not among the provided sources); the three roles are enumerated in the doc
comment of `BucketAccessControl` and the wire strings are the vendor's
uppercase forms, parsed case-sensitively per the spec. -/
inductive Role where
  | reader : Role
  | writer : Role
  | owner : Role

/-- Modelled from the spec: parse a role's uppercase wire string. -/
def parseRole (s : String) : Option Role :=
  if s == "READER" then some .reader
  else if s == "WRITER" then some .writer
  else if s == "OWNER" then some .owner
  else none

/-- The project team attached to an access-control entry. Defined in
`resources/common.rs` (not among the provided sources); modelled as its two
optional camelCase members. -/
structure ProjectTeam where
  projectNumber : Option String
  team : Option String

/-- Modelled from the spec: decode a `ProjectTeam` object. -/
def decodeProjectTeam : Json → Option ProjectTeam
  | .obj fields =>
    match optStrField "projectNumber" fields, optStrField "team" fields with
    | some pn, some t => some ⟨pn, t⟩
    | _, _ => none
  | _ => none

/-- serde semantics for an `Option<ProjectTeam>` field. -/
def optProjectTeamField (key : String) (fields : List (String × Json)) :
    Option (Option ProjectTeam) :=
  match jsonLookup key fields with
  | none => some none
  | some .null => some none
  | some v => (decodeProjectTeam v).map some

/-- serde semantics for a required `Entity` field. -/
def entityField (key : String) (fields : List (String × Json)) : Option Entity :=
  ((jsonLookup key fields).bind getStr).bind parseEntity

/-- serde semantics for a required `Role` field. -/
def roleField (key : String) (fields : List (String × Json)) : Option Role :=
  ((jsonLookup key fields).bind getStr).bind parseRole

/-- `BucketAccessControl` (src/resources/bucket_access_control.rs): an ACL
entry on a bucket, with the fields of the Rust struct. -/
structure BucketAccessControl where
  kind : String
  id : String
  self_link : String
  bucket : String
  entity : Entity
  role : Role
  email : Option String
  entity_id : Option String
  domain : Option String
  project_team : Option ProjectTeam
  etag : String

/-- serde `Deserialize` for `BucketAccessControl` under
`rename_all = "camelCase"`: every non-`Option` field is required. -/
def decodeBucketAccessControl : Json → Option BucketAccessControl
  | .obj fields =>
    match reqStrField "kind" fields, reqStrField "id" fields,
          reqStrField "selfLink" fields, reqStrField "bucket" fields,
          entityField "entity" fields, roleField "role" fields,
          optStrField "email" fields, optStrField "entityId" fields,
          optStrField "domain" fields, optProjectTeamField "projectTeam" fields,
          reqStrField "etag" fields with
    | some kind, some id, some selfLink, some bucket, some entity, some role,
      some email, some entityId, some dom, some pt, some etag =>
      some ⟨kind, id, selfLink, bucket, entity, role, email, entityId, dom, pt, etag⟩
    | _, _, _, _, _, _, _, _, _, _, _ => none
  | _ => none

/-- `ObjectAccessControl` (src/resources/object_access_control.rs). -/
structure ObjectAccessControl where
  kind : String
  id : String
  self_link : String
  bucket : String
  object : String
  generation : Option String
  entity : Entity
  role : Role
  email : Option String
  entity_id : Option String
  domain : Option String
  project_team : Option ProjectTeam
  etag : String

/-- serde `Deserialize` for `ObjectAccessControl` (camelCase). -/
def decodeObjectAccessControl : Json → Option ObjectAccessControl
  | .obj fields =>
    match reqStrField "kind" fields, reqStrField "id" fields,
          reqStrField "selfLink" fields, reqStrField "bucket" fields,
          reqStrField "object" fields, optStrField "generation" fields,
          entityField "entity" fields, roleField "role" fields,
          optStrField "email" fields, optStrField "entityId" fields,
          optStrField "domain" fields, optProjectTeamField "projectTeam" fields,
          reqStrField "etag" fields with
    | some kind, some id, some selfLink, some bucket, some object, some gen,
      some entity, some role, some email, some entityId, some dom, some pt,
      some etag =>
      some ⟨kind, id, selfLink, bucket, object, gen, entity, role, email,
            entityId, dom, pt, etag⟩
    | _, _, _, _, _, _, _, _, _, _, _, _, _ => none
  | _ => none

/-- `DefaultObjectAccessControl` (src/resources/default_object_access_control.rs).
The `bucket` field carries `#[serde(default)]`: Google does not return it, so
it decodes to `""` when absent and the client injects the caller's value. -/
structure DefaultObjectAccessControl where
  kind : String
  entity : Entity
  role : Role
  email : Option String
  entity_id : Option String
  domain : Option String
  project_team : Option ProjectTeam
  etag : String
  bucket : String

/-- serde `Deserialize` for `DefaultObjectAccessControl` (camelCase,
`bucket` defaulted to the empty string when missing). -/
def decodeDefaultObjectAccessControl : Json → Option DefaultObjectAccessControl
  | .obj fields =>
    match reqStrField "kind" fields, entityField "entity" fields,
          roleField "role" fields, optStrField "email" fields,
          optStrField "entityId" fields, optStrField "domain" fields,
          optProjectTeamField "projectTeam" fields, reqStrField "etag" fields,
          (match jsonLookup "bucket" fields with
           | none => some ""
           | some v => getStr v) with
    | some kind, some entity, some role, some email, some entityId, some dom,
      some pt, some etag, some bucket =>
      some ⟨kind, entity, role, email, entityId, dom, pt, etag, bucket⟩
    | _, _, _, _, _, _, _, _, _ => none
  | _ => none

/-- The state of an HMAC key (src/resources/hmac_key.rs,
`rename_all = "UPPERCASE"`). -/
inductive HmacState where
  | active : HmacState
  | inactive : HmacState
  | deleted : HmacState

/-- serde `Deserialize` for `HmacState`. -/
def parseHmacState (s : String) : Option HmacState :=
  if s == "ACTIVE" then some .active
  else if s == "INACTIVE" then some .inactive
  else if s == "DELETED" then some .deleted
  else none

/-- `HmacMeta` (src/resources/hmac_key.rs). The two `chrono` timestamp
fields are abstracted as their wire strings. -/
structure HmacMeta where
  kind : String
  id : String
  self_link : String
  access_id : String
  project_id : String
  service_account_email : String
  state : HmacState
  time_created : String
  updated : String
  etag : String

/-- serde `Deserialize` for `HmacMeta` (camelCase). -/
def decodeHmacMeta : Json → Option HmacMeta
  | .obj fields =>
    match reqStrField "kind" fields, reqStrField "id" fields,
          reqStrField "selfLink" fields, reqStrField "accessId" fields,
          reqStrField "projectId" fields,
          reqStrField "serviceAccountEmail" fields,
          ((jsonLookup "state" fields).bind getStr).bind parseHmacState,
          reqStrField "timeCreated" fields, reqStrField "updated" fields,
          reqStrField "etag" fields with
    | some kind, some id, some selfLink, some accessId, some projectId,
      some email, some state, some created, some updated, some etag =>
      some ⟨kind, id, selfLink, accessId, projectId, email, state, created,
            updated, etag⟩
    | _, _, _, _, _, _, _, _, _, _ => none
  | _ => none

/-- `HmacKey` (src/resources/hmac_key.rs): the full key resource, secret
included, returned only by `create`. -/
structure HmacKey where
  kind : String
  metadata : HmacMeta
  secret : String

/-- serde `Deserialize` for `HmacKey` (camelCase). -/
def decodeHmacKey : Json → Option HmacKey
  | .obj fields =>
    match reqStrField "kind" fields,
          (jsonLookup "metadata" fields).bind decodeHmacMeta,
          reqStrField "secret" fields with
    | some kind, some meta, some secret => some ⟨kind, meta, secret⟩
    | _, _, _ => none
  | _ => none

/-- The private list wrapper of `HmacKey::list`
(src/resources/hmac_key.rs lines 61-64): `items` is a plain required field,
with no serde default — a body without `items` does not decode. -/
structure HmacListResponse where
  items : List HmacMeta

/-- serde `Deserialize` for the HMAC local `ListResponse`. -/
def decodeHmacListResponse : Json → Option HmacListResponse
  | .obj fields =>
    match jsonLookup "items" fields with
    | some (.arr xs) => (xs.mapM decodeHmacMeta).map HmacListResponse.mk
    | _ => none
  | _ => none

/-- The shared list wrapper of `resources/common.rs` (not among the provided
sources). Modelled from the spec: "the success shape wraps a collection under
an `items` key; absence of that key means empty collection". -/
structure ListResponse (T : Type) where
  items : List T

/-- Modelled from the spec: decode the shared `ListResponse<T>`; a missing
`items` key yields the empty collection, a present one must be an array of
decodable elements. -/
def decodeListResponse {T : Type} (dec : Json → Option T) :
    Json → Option (ListResponse T)
  | .obj fields =>
    match jsonLookup "items" fields with
    | none => some ⟨[]⟩
    | some (.arr xs) => (xs.mapM dec).map ListResponse.mk
    | some _ => none
  | _ => none

/-- serde `Deserialize` for Rust's `()`, the payload of the delete
operations: only JSON `null` decodes. -/
def decodeUnit : Json → Option Unit
  | .null => some ()
  | _ => none

/-- An HTTP response: its status code and body. `body = none` stands for a
body that is not well-formed JSON (reqwest's `.json()` would fail on it
before shape checking). -/
structure HttpResponse where
  status : Nat
  body : Option Json

/-- `Response::status().is_success()`: the 2xx range. -/
def isSuccessStatus (status : Nat) : Bool :=
  200 ≤ status && status < 300

/-- An outgoing request as far as the claims observe it: its URL and its
query parameters. Request bodies (the serialized create/update payloads) are
outside the scope of the claims and are not modelled. -/
structure Request where
  url : String
  query : List (String × String)

/-- The effectful environment of an operation: the outcome of
`get_headers().await` (token acquisition) and, for each request, the outcome
of `send().await` (transmission). Both model the `?`-propagated fallible
steps of the sources. -/
structure Env where
  headers : Except Err Unit
  send : Request → Except Err HttpResponse

/-- reqwest's `Response::json::<T>()`: fail with a decode error when the body
is not JSON or does not have the expected shape. -/
def responseJson {T : Type} (dec : Json → Option T) (r : HttpResponse) :
    Except Err T :=
  match r.body with
  | none => .error .decode
  | some j =>
    match dec j with
    | some v => .ok v
    | none => .error .decode

/-- The uniform operation pipeline shared by every resource call in the
sources: attach headers (propagating token failure), send (propagating
transport failure), decode the body as a `GoogleResponse` (propagating decode
failure), and split the envelope with `into_result`. The HTTP status is never
consulted. -/
def runOp {T : Type} (headers : Except Err Unit)
    (response : Except Err HttpResponse) (dec : Json → Option T) :
    Except Err T := do
  let _ ← headers
  let r ← response
  let g ← responseJson (decodeGoogleResponse dec) r
  g.intoResult

/-- `crate::BASE_URL` (src/lib.rs line 162). -/
def BASE_URL : String := "https://www.googleapis.com/storage/v1"

/-- URL of `BucketAccessControl::create`/`list`
(src/resources/bucket_access_control.rs lines 119 and 151):
`format!("{}/b/{}/acl", BASE_URL, bucket)`. -/
def bucketAclUrl (bucket : String) : String :=
  BASE_URL ++ "/b/" ++ bucket ++ "/acl"

/-- URL of `BucketAccessControl::read`/`update`/`delete`
(src/resources/bucket_access_control.rs lines 182, 215, 248):
`format!("{}/b/{}/acl/{}", BASE_URL, bucket, entity)`. -/
def bucketAclEntityUrl (bucket : String) (entity : Entity) : String :=
  BASE_URL ++ "/b/" ++ bucket ++ "/acl/" ++ entity.render

/-- URL of `ObjectAccessControl::create`/`list`
(src/resources/object_access_control.rs lines 120 and 144). -/
def objectAclUrl (bucket object : String) : String :=
  BASE_URL ++ "/b/" ++ bucket ++ "/o/" ++ object ++ "/acl"

/-- URL of `ObjectAccessControl::read`/`update`/`delete`
(src/resources/object_access_control.rs lines 169-175, 194-200, 220-226). -/
def objectAclEntityUrl (bucket object : String) (entity : Entity) : String :=
  BASE_URL ++ "/b/" ++ bucket ++ "/o/" ++ object ++ "/acl/" ++ entity.render

/-- URL of `DefaultObjectAccessControl::create`/`list`
(src/resources/default_object_access_control.rs lines 106 and 138). -/
def defaultObjectAclUrl (bucket : String) : String :=
  BASE_URL ++ "/b/" ++ bucket ++ "/defaultObjectAcl"

/-- URL of `DefaultObjectAccessControl::read`/`update`/`delete`
(src/resources/default_object_access_control.rs lines 182-187, 220-225,
258-263). -/
def defaultObjectAclEntityUrl (bucket : String) (entity : Entity) : String :=
  BASE_URL ++ "/b/" ++ bucket ++ "/defaultObjectAcl/" ++ entity.render

/-- URL of `HmacKey::create`/`list` (src/resources/hmac_key.rs lines 107-111
and 146-150). -/
def hmacKeysUrl (projectId : String) : String :=
  BASE_URL ++ "/projects/" ++ projectId ++ "/hmacKeys"

/-- URL of `HmacKey::read`/`update`/`delete` (src/resources/hmac_key.rs
lines 188-193, 228-233, 264-269). -/
def hmacKeyUrl (projectId accessId : String) : String :=
  BASE_URL ++ "/projects/" ++ projectId ++ "/hmacKeys/" ++ accessId

/-- `ServiceAccount` (src/resources/service_account.rs): the parsed
service-account JSON document. -/
structure ServiceAccount where
  type_ : String
  project_id : String
  private_key_id : String
  private_key : String
  client_email : String
  client_id : String
  auth_uri : String
  token_uri : String
  auth_provider_x509_cert_url : String
  client_x509_cert_url : String

/-- serde `Deserialize` for `ServiceAccount`: all ten fields required, keys
in snake case except the `type` rename. -/
def decodeServiceAccount : Json → Option ServiceAccount
  | .obj fields =>
    match reqStrField "type" fields, reqStrField "project_id" fields,
          reqStrField "private_key_id" fields,
          reqStrField "private_key" fields,
          reqStrField "client_email" fields, reqStrField "client_id" fields,
          reqStrField "auth_uri" fields, reqStrField "token_uri" fields,
          reqStrField "auth_provider_x509_cert_url" fields,
          reqStrField "client_x509_cert_url" fields with
    | some ty, some projectId, some pkId, some pk, some email, some clientId,
      some authUri, some tokenUri, some authCert, some clientCert =>
      some ⟨ty, projectId, pkId, pk, email, clientId, authUri, tokenUri,
            authCert, clientCert⟩
    | _, _, _, _, _, _, _, _, _, _ => none
  | _ => none

/-- `Client` (src/lib.rs lines 105-118). The `gouth::Token` is abstracted as
the secret string it caches, and the inner `reqwest::Client` as its `Debug`
rendering, the only way either is observed by the claims. -/
structure Client where
  token : String
  project_id : String
  service_account : Option ServiceAccount
  http_client : String

/-- `NewBucketAccessControl` (src/resources/bucket_access_control.rs). -/
structure NewBucketAccessControl where
  entity : Entity
  role : Role

/-- `NewObjectAccessControl` (src/resources/object_access_control.rs). -/
structure NewObjectAccessControl where
  entity : Entity
  role : Role

/-- `NewDefaultObjectAccessControl`
(src/resources/default_object_access_control.rs). -/
structure NewDefaultObjectAccessControl where
  entity : Entity
  role : Role

/-- `BucketAccessControl::create` (src/resources/bucket_access_control.rs
lines 115-132): POST to `{BASE_URL}/b/{bucket}/acl`, decode the body as a
`GoogleResponse<Self>`, split the envelope. The serialized request body is
not modelled. -/
def BucketAccessControl.create (env : Env) (bucket : String)
    (_newAcl : NewBucketAccessControl) : Except Err BucketAccessControl :=
  runOp env.headers (env.send ⟨bucketAclUrl bucket, []⟩)
    decodeBucketAccessControl

/-- `BucketAccessControl::list` (src/resources/bucket_access_control.rs
lines 150-163): GET the same URL, decode a `GoogleResponse<ListResponse<Self>>`,
return its `items`. -/
def BucketAccessControl.list (env : Env) (bucket : String) :
    Except Err (List BucketAccessControl) :=
  (runOp env.headers (env.send ⟨bucketAclUrl bucket, []⟩)
    (decodeListResponse decodeBucketAccessControl)).map (fun s => s.items)

/-- `BucketAccessControl::read` (src/resources/bucket_access_control.rs
lines 181-194). -/
def BucketAccessControl.read (env : Env) (bucket : String) (entity : Entity) :
    Except Err BucketAccessControl :=
  runOp env.headers (env.send ⟨bucketAclEntityUrl bucket entity, []⟩)
    decodeBucketAccessControl

/-- `BucketAccessControl::update` (src/resources/bucket_access_control.rs
lines 214-228): the URL is built from the record's own `bucket` and
`entity`. -/
def BucketAccessControl.update (env : Env) (acl : BucketAccessControl) :
    Except Err BucketAccessControl :=
  runOp env.headers (env.send ⟨bucketAclEntityUrl acl.bucket acl.entity, []⟩)
    decodeBucketAccessControl

/-- `BucketAccessControl::delete` (src/resources/bucket_access_control.rs
lines 247-259). Unlike every other operation this one branches on the HTTP
status: a 2xx response yields `Ok(())` without reading the body; otherwise
the body is decoded as the error envelope and wrapped in `Error::Google`. -/
def BucketAccessControl.delete (env : Env) (acl : BucketAccessControl) :
    Except Err Unit := do
  let _ ← env.headers
  let r ← env.send ⟨bucketAclEntityUrl acl.bucket acl.entity, []⟩
  if isSuccessStatus r.status then
    .ok ()
  else do
    let e ← responseJson decodeErrorEnvelope r
    .error (.google e)

/-- `ObjectAccessControl::create` (src/resources/object_access_control.rs
lines 114-130). -/
def ObjectAccessControl.create (env : Env) (bucket object : String)
    (_newAcl : NewObjectAccessControl) : Except Err ObjectAccessControl :=
  runOp env.headers (env.send ⟨objectAclUrl bucket object, []⟩)
    decodeObjectAccessControl

/-- `ObjectAccessControl::list` (src/resources/object_access_control.rs
lines 139-154). -/
def ObjectAccessControl.list (env : Env) (bucket object : String) :
    Except Err (List ObjectAccessControl) :=
  (runOp env.headers (env.send ⟨objectAclUrl bucket object, []⟩)
    (decodeListResponse decodeObjectAccessControl)).map (fun s => s.items)

/-- `ObjectAccessControl::read` (src/resources/object_access_control.rs
lines 163-184). -/
def ObjectAccessControl.read (env : Env) (bucket object : String)
    (entity : Entity) : Except Err ObjectAccessControl :=
  runOp env.headers (env.send ⟨objectAclEntityUrl bucket object entity, []⟩)
    decodeObjectAccessControl

/-- `ObjectAccessControl::update` (src/resources/object_access_control.rs
lines 193-210). -/
def ObjectAccessControl.update (env : Env) (acl : ObjectAccessControl) :
    Except Err ObjectAccessControl :=
  runOp env.headers
    (env.send ⟨objectAclEntityUrl acl.bucket acl.object acl.entity, []⟩)
    decodeObjectAccessControl

/-- `ObjectAccessControl::delete` (src/resources/object_access_control.rs
lines 219-235): decodes the body as `GoogleResponse<()>` — the envelope, not
the status, decides the outcome. -/
def ObjectAccessControl.delete (env : Env) (acl : ObjectAccessControl) :
    Except Err Unit :=
  runOp env.headers
    (env.send ⟨objectAclEntityUrl acl.bucket acl.object acl.entity, []⟩)
    decodeUnit

/-- `DefaultObjectAccessControl::create`
(src/resources/default_object_access_control.rs lines 101-120): after the
envelope splits successfully, the caller's `bucket` is written into the
returned record. -/
def DefaultObjectAccessControl.create (env : Env) (bucket : String)
    (_newAcl : NewDefaultObjectAccessControl) :
    Except Err DefaultObjectAccessControl :=
  (runOp env.headers (env.send ⟨defaultObjectAclUrl bucket, []⟩)
    decodeDefaultObjectAccessControl).map (fun s => { s with bucket := bucket })

/-- `DefaultObjectAccessControl::list`
(src/resources/default_object_access_control.rs lines 137-156): the caller's
`bucket` is written into every returned item. -/
def DefaultObjectAccessControl.list (env : Env) (bucket : String) :
    Except Err (List DefaultObjectAccessControl) :=
  (runOp env.headers (env.send ⟨defaultObjectAclUrl bucket, []⟩)
    (decodeListResponse decodeDefaultObjectAccessControl)).map
    (fun s => s.items.map (fun item => { item with bucket := bucket }))

/-- `DefaultObjectAccessControl::read`
(src/resources/default_object_access_control.rs lines 177-200). -/
def DefaultObjectAccessControl.read (env : Env) (bucket : String)
    (entity : Entity) : Except Err DefaultObjectAccessControl :=
  (runOp env.headers (env.send ⟨defaultObjectAclEntityUrl bucket entity, []⟩)
    decodeDefaultObjectAccessControl).map (fun s => { s with bucket := bucket })

/-- `DefaultObjectAccessControl::update`
(src/resources/default_object_access_control.rs lines 219-239): the record's
own `bucket` is re-injected into the response. -/
def DefaultObjectAccessControl.update (env : Env)
    (acl : DefaultObjectAccessControl) : Except Err DefaultObjectAccessControl :=
  (runOp env.headers
    (env.send ⟨defaultObjectAclEntityUrl acl.bucket acl.entity, []⟩)
    decodeDefaultObjectAccessControl).map
    (fun s => { s with bucket := acl.bucket })

/-- `DefaultObjectAccessControl::delete`
(src/resources/default_object_access_control.rs lines 257-272). -/
def DefaultObjectAccessControl.delete (env : Env)
    (acl : DefaultObjectAccessControl) : Except Err Unit :=
  runOp env.headers
    (env.send ⟨defaultObjectAclEntityUrl acl.bucket acl.entity, []⟩)
    decodeUnit

/-- The request built by `HmacKey::create` (src/resources/hmac_key.rs lines
107-112): the `hmacKeys` collection URL with the service account's
`client_email` as the `serviceAccountEmail` query parameter. -/
def HmacKey.createRequest (s : ServiceAccount) (projectId : String) : Request :=
  ⟨hmacKeysUrl projectId, [("serviceAccountEmail", s.client_email)]⟩

/-- `HmacKey::create` (src/resources/hmac_key.rs lines 99-123): the client's
`service_account` is demanded first — `None` short-circuits to
`Error::MissingServiceAccount` before any URL is built or request sent. -/
def HmacKey.create (env : Env) (cloudStorage : Client) : Except Err HmacKey :=
  match cloudStorage.service_account with
  | none => .error .missingServiceAccount
  | some s =>
    runOp env.headers (env.send (HmacKey.createRequest s cloudStorage.project_id))
      decodeHmacKey

/-- `HmacKey::list` (src/resources/hmac_key.rs lines 145-166): the
`.json()` decode step is wrapped in `map_or_else(|_| Ok(vec![]), …)`, so any
decode failure of the list response becomes a successful empty list; a
successfully decoded error envelope still surfaces through `into_result`. -/
def HmacKey.list (env : Env) (cloudStorage : Client) :
    Except Err (List HmacMeta) := do
  let _ ← env.headers
  let r ← env.send ⟨hmacKeysUrl cloudStorage.project_id, []⟩
  match responseJson (decodeGoogleResponse decodeHmacListResponse) r with
  | .error _ => .ok []
  | .ok parsed => parsed.intoResult.map (fun s => s.items)

/-- `HmacKey::read` (src/resources/hmac_key.rs lines 186-202). -/
def HmacKey.read (env : Env) (cloudStorage : Client) (accessId : String) :
    Except Err HmacMeta :=
  runOp env.headers
    (env.send ⟨hmacKeyUrl cloudStorage.project_id accessId, []⟩)
    decodeHmacMeta

/-- `HmacKey::update` (src/resources/hmac_key.rs lines 222-243). The
serialized `UpdateMeta` body is not modelled. -/
def HmacKey.update (env : Env) (cloudStorage : Client) (accessId : String)
    (_state : HmacState) : Except Err HmacMeta :=
  runOp env.headers
    (env.send ⟨hmacKeyUrl cloudStorage.project_id accessId, []⟩)
    decodeHmacMeta

/-- `HmacKey::delete` (src/resources/hmac_key.rs lines 262-278): decodes the
body as `GoogleResponse<()>` — the envelope, not the status, decides. -/
def HmacKey.delete (env : Env) (cloudStorage : Client) (accessId : String) :
    Except Err Unit :=
  runOp env.headers
    (env.send ⟨hmacKeyUrl cloudStorage.project_id accessId, []⟩)
    decodeUnit

/-- The state of the two environment variables `ServiceAccount::from_env`
consults (src/resources/service_account.rs lines 52-53). -/
structure EnvVars where
  service_account : Option String
  google_application_credentials : Option String

/-- The `or_else` chain of src/resources/service_account.rs lines 52-53:
`SERVICE_ACCOUNT` first, then `GOOGLE_APPLICATION_CREDENTIALS`. -/
def EnvVars.credPath (v : EnvVars) : Option String :=
  match v.service_account with
  | some p => some p
  | none => v.google_application_credentials

/-- What reading the configured credential file can produce: the file is
absent (`read_to_string` fails), present but not a well-formed
service-account JSON document (`serde_json::from_str` fails), or parsed. -/
inductive FileContent where
  | missing : FileContent
  | invalid : FileContent
  | json (j : Json) : FileContent

/-- The filesystem as `from_env` observes it. -/
structure Fs where
  read : String → FileContent

/-- The observable outcome of `ServiceAccount::from_env`: a returned value,
a returned error, or a panic (`expect`/`panic!` aborting instead of
returning). -/
inductive FromEnvOutcome where
  | ok (account : ServiceAccount) : FromEnvOutcome
  | err (e : Err) : FromEnvOutcome
  | panic (msg : String) : FromEnvOutcome

/-- `ServiceAccount::from_env` (src/resources/service_account.rs lines
50-61). A missing variable is returned as `Error::Other`; but an absent
file, an unparsable file, and a wrong `type` value all abort through
`expect`/`panic!` rather than returning. The panic messages are the
source's, with the quoting punctuation dropped. -/
def ServiceAccount.from_env (v : EnvVars) (fs : Fs) : FromEnvOutcome :=
  match v.credPath with
  | none => .err (.other "environment variable not found")
  | some path =>
    match fs.read path with
    | .missing => .panic "SERVICE_ACCOUNT file not found"
    | .invalid => .panic "service account file not valid"
    | .json j =>
      match decodeServiceAccount j with
      | none => .panic "service account file not valid"
      | some account =>
        if account.type_ == "service_account" then .ok account
        else .panic
          "type parameter of SERVICE_ACCOUNT variable is not service_account"

/-- Rust's `Debug` rendering of a string value. -/
def debugQuote (s : String) : String := "\"" ++ s ++ "\""

/-- The `Debug` implementation of `ServiceAccount`
(src/resources/service_account.rs lines 29-47): every field is rendered
verbatim except `private_key`, which is replaced by the literal `"..."`. -/
def ServiceAccount.debugFmt (a : ServiceAccount) : String :=
  "ServiceAccount \x7b type: " ++ debugQuote a.type_ ++
  ", project_id: " ++ debugQuote a.project_id ++
  ", private_key_id: " ++ debugQuote a.private_key_id ++
  ", private_key: " ++ debugQuote "..." ++
  ", client_email: " ++ debugQuote a.client_email ++
  ", client_id: " ++ debugQuote a.client_id ++
  ", auth_uri: " ++ debugQuote a.auth_uri ++
  ", token_uri: " ++ debugQuote a.token_uri ++
  ", auth_provider_x509_cert_url: " ++ debugQuote a.auth_provider_x509_cert_url ++
  ", client_x509_cert_url: " ++ debugQuote a.client_x509_cert_url ++
  " \x7d"

/-- `Debug` of `Option<ServiceAccount>`, as it appears inside the client's
rendering. -/
def optionServiceAccountDebug : Option ServiceAccount → String
  | none => "None"
  | some a => "Some(" ++ a.debugFmt ++ ")"

/-- The `Debug` implementation of `Client` (src/lib.rs lines 120-129): the
`token` field is replaced by the literal `"..."`; `project_id`,
`service_account` and the inner reqwest client are rendered. -/
def Client.debugFmt (c : Client) : String :=
  "Client \x7b token: " ++ debugQuote "..." ++
  ", project_id: " ++ debugQuote c.project_id ++
  ", service_account: " ++ optionServiceAccountDebug c.service_account ++
  ", client: " ++ c.http_client ++
  " \x7d"

/-- RFC 3986 unreserved characters, the ones percent-encoding leaves
alone. -/
def isUnreservedChar (c : Char) : Bool :=
  c.isAlphanum || c == '-' || c == '.' || c == '_' || c == '~'

/-- Uppercase hexadecimal digit of a value below 16. -/
def hexDigit (n : Nat) : Char :=
  if n < 10 then Char.ofNat (48 + n) else Char.ofNat (55 + n)

/-- Percent-encode one character (ASCII range;  multi-byte code points do
not occur in the identifiers the claims exercise). -/
def pctEncodeChar (c : Char) : List Char :=
  if isUnreservedChar c then [c]
  else ['%', hexDigit (c.toNat / 16 % 16), hexDigit (c.toNat % 16)]

/-- The percent-encoding the specification demands of caller-supplied
identifiers before they are interpolated into a request path. This
definition follows the spec's words; the sources contain no encoding step to
embed, which is exactly what the corresponding claim is about. -/
def specPercentEncode (s : String) : String :=
  ⟨s.data.flatMap pctEncodeChar⟩

/-- Whether `needle` occurs at the start of `hay`. -/
def charsHavePre : List Char → List Char → Bool
  | [], _ => true
  | _ :: _, [] => false
  | a :: as, b :: bs => a == b && charsHavePre as bs

/-- Whether `needle` occurs anywhere inside `hay`. -/
def charsContain (needle : List Char) : List Char → Bool
  | [] => charsHavePre needle []
  | b :: bs => charsHavePre needle (b :: bs) || charsContain needle bs

/-- Whether string `needle` is a substring of `hay`. -/
def strContains (hay needle : String) : Bool :=
  charsContain needle.data hay.data

theorem except_ok_bind {α β : Type} (a : α) (f : α → Except Err β) :
    (Except.ok a : Except Err α) >>= f = f a := rfl

theorem except_error_bind {α β : Type} (e : Err) (f : α → Except Err β) :
    (Except.error e : Except Err α) >>= f = .error e := rfl

theorem decodeGoogleResponse_no_error_key {T : Type} (dec : Json → Option T)
    (fields : List (String × Json)) (h : jsonLookup "error" fields = none) :
    decodeGoogleResponse dec (.obj fields) = (dec (.obj fields)).map .success := by
  simp only [decodeGoogleResponse, decodeErrorEnvelope, h, Option.none_bind]

theorem decodeListResponse_no_items {T : Type} (dec : Json → Option T)
    (fields : List (String × Json)) (h : jsonLookup "items" fields = none) :
    decodeListResponse dec (.obj fields) = some ⟨[]⟩ := by
  simp only [decodeListResponse, h]

theorem decodeHmacListResponse_no_items (fields : List (String × Json))
    (h : jsonLookup "items" fields = none) :
    decodeHmacListResponse (.obj fields) = none := by
  simp only [decodeHmacListResponse, h]

/-- **C1.** The claim states that every request path percent-encodes
caller-supplied identifiers. The sources interpolate the identifiers into
the URL templates verbatim (`format!` with no encoding step): for the bucket
name `"my bucket"` the constructed path contains the raw identifier and not
its percent-encoded form `"my%20bucket"`, and for the object name
`"a/c.txt"` the path contains the raw name and not `"a%2Fc.txt"`. This
contradicts the claim at these inputs. -/
theorem c1_request_path_not_percent_encoded :
    bucketAclUrl "my bucket" =
      "https://www.googleapis.com/storage/v1/b/my bucket/acl" ∧
    specPercentEncode "my bucket" = "my%20bucket" ∧
    strContains (bucketAclUrl "my bucket") (specPercentEncode "my bucket") =
      false ∧
    strContains (bucketAclUrl "my bucket") "my bucket" = true ∧
    objectAclUrl "mybucket" "a/c.txt" =
      "https://www.googleapis.com/storage/v1/b/mybucket/o/a/c.txt/acl" ∧
    specPercentEncode "a/c.txt" = "a%2Fc.txt" ∧
    strContains (objectAclUrl "mybucket" "a/c.txt")
      (specPercentEncode "a/c.txt") = false :=
  ⟨rfl, rfl, rfl, rfl, rfl, rfl, rfl⟩

/-- **C2.** Decoding a body into the response envelope is mutually
exclusive: when the decode succeeds, the result is the error variant exactly
when the body carries a schema-conforming `"error"` object, and a body
without one can never produce the error variant. -/
theorem c2_envelope_mutually_exclusive {T : Type} (dec : Json → Option T)
    (j : Json) (r : GoogleResponse T)
    (h : decodeGoogleResponse dec j = some r) :
    (∀ e, decodeErrorEnvelope j = some e → r = .error e) ∧
    (decodeErrorEnvelope j = none → ∀ e, r ≠ GoogleResponse.error e) := by
  unfold decodeGoogleResponse at h
  cases henv : decodeErrorEnvelope j with
  | some e =>
    rw [henv] at h
    injection h with h
    refine ⟨fun e2 he2 => ?_, fun hnone => ?_⟩
    · injection he2 with he2
      rw [← h, he2]
    · exact Option.noConfusion hnone
  | none =>
    rw [henv] at h
    refine ⟨fun e2 he2 => ?_, fun _ e2 => ?_⟩
    · exact Option.noConfusion he2
    · cases hd : dec j with
      | none =>
        rw [hd] at h
        exact Option.noConfusion h
      | some t =>
        rw [hd] at h
        have h2 : some (GoogleResponse.success t) = some r := h
        injection h2 with h2
        rw [← h2]
        intro hc
        exact GoogleResponse.noConfusion hc

/-- Witness for **C2** at a concrete body: `null` decodes as a success
payload for the unit decoder, and the resulting value is not the error
variant. -/
theorem c2_envelope_mutually_exclusive_witness :
    decodeGoogleResponse decodeUnit Json.null = some (.success ()) ∧
    (GoogleResponse.success () : GoogleResponse Unit) ≠
      GoogleResponse.error ⟨403, "forbidden", []⟩ :=
  ⟨rfl,
   (c2_envelope_mutually_exclusive decodeUnit Json.null (.success ()) rfl).2
     rfl ⟨403, "forbidden", []⟩⟩

/-- **C3.** `HmacKey::list` swallows decode failures: whenever token
acquisition and transmission succeed but the response body fails to decode
as `GoogleResponse<ListResponse>` — whatever the cause of that decode
failure — the operation returns `Ok` with the empty vector. -/
theorem c3_hmac_list_swallows_decode_failures (env : Env) (c : Client)
    (r : HttpResponse) (e : Err)
    (hh : env.headers = .ok ())
    (hs : env.send ⟨hmacKeysUrl c.project_id, []⟩ = .ok r)
    (hd : responseJson (decodeGoogleResponse decodeHmacListResponse) r =
      .error e) :
    HmacKey.list env c = .ok [] := by
  simp only [HmacKey.list, hh, hs, except_ok_bind, hd]

/-- Witness for **C3**: Google's single-item quirk response
`{"kind": "storage#hmacKeysMetadata"}` (no `items` field) does not decode,
and the operation yields the empty list. -/
theorem c3_hmac_list_swallows_decode_failures_witness :
    HmacKey.list
      ⟨.ok (), fun _ =>
        .ok ⟨200, some (.obj [("kind", .str "storage#hmacKeysMetadata")])⟩⟩
      ⟨"token", "my-project", none, "reqwest::Client"⟩ = .ok [] :=
  c3_hmac_list_swallows_decode_failures _ _
    ⟨200, some (.obj [("kind", .str "storage#hmacKeysMetadata")])⟩
    Err.decode rfl rfl rfl

/-- **C4, counterexample.** The claim that no operation maps a failure to a
non-error result and no step terminates instead of returning fails twice in
the sources: `HmacKey::list` turns a failed decode into `Ok(vec![])`, and
`ServiceAccount::from_env` panics when the configured credential file is
absent. -/
theorem c4_counterexample :
    responseJson (decodeGoogleResponse decodeHmacListResponse)
      ⟨200, some (.obj [("kind", .str "storage#hmacKeysMetadata")])⟩ =
      .error .decode ∧
    HmacKey.list
      ⟨.ok (), fun _ =>
        .ok ⟨200, some (.obj [("kind", .str "storage#hmacKeysMetadata")])⟩⟩
      ⟨"secret-token", "some-project", none, "reqwest"⟩ = .ok [] ∧
    ServiceAccount.from_env ⟨some "sa.json", none⟩ ⟨fun _ => .missing⟩ =
      .panic "SERVICE_ACCOUNT file not found" :=
  ⟨rfl, rfl, rfl⟩

/-- **C4, amended.** Every failing step of the shared pipeline — token
acquisition, transmission, body decoding, a decoded error envelope — is
returned as an error to the immediate caller, with two exceptions:
`HmacKey::list` maps any decode failure of its list response to a successful
empty list, and `ServiceAccount::from_env` terminates by panic instead of
returning when a credential file is configured but absent (a missing
environment variable is still returned as an error). -/
theorem c4_error_propagation_amended :
    (∀ (T : Type) (dec : Json → Option T) (e : Err)
        (resp : Except Err HttpResponse),
      runOp (.error e) resp dec = .error e) ∧
    (∀ (T : Type) (dec : Json → Option T) (e : Err),
      runOp (.ok ()) (.error e) dec = .error e) ∧
    (∀ (T : Type) (dec : Json → Option T) (r : HttpResponse) (e : Err),
      responseJson (decodeGoogleResponse dec) r = .error e →
      runOp (.ok ()) (.ok r) dec = .error e) ∧
    (∀ (T : Type) (dec : Json → Option T) (r : HttpResponse) (e : ErrorDetail),
      responseJson (decodeGoogleResponse dec) r = .ok (.error e) →
      runOp (.ok ()) (.ok r) dec = .error (.google e)) ∧
    (∀ (env : Env) (c : Client) (r : HttpResponse) (e : Err),
      env.headers = .ok () →
      env.send ⟨hmacKeysUrl c.project_id, []⟩ = .ok r →
      responseJson (decodeGoogleResponse decodeHmacListResponse) r =
        .error e →
      HmacKey.list env c = .ok []) ∧
    (∀ (v : EnvVars) (fs : Fs), v.credPath = none →
      ServiceAccount.from_env v fs =
        .err (.other "environment variable not found")) ∧
    (∀ (v : EnvVars) (fs : Fs) (path : String), v.credPath = some path →
      fs.read path = .missing →
      ServiceAccount.from_env v fs = .panic "SERVICE_ACCOUNT file not found") := by
  refine ⟨fun T dec e resp => rfl, fun T dec e => rfl, ?_, ?_, ?_, ?_, ?_⟩
  · intro T dec r e hd
    simp only [runOp, except_ok_bind, hd, except_error_bind]
  · intro T dec r e hd
    simp only [runOp, except_ok_bind, hd, GoogleResponse.intoResult]
  · intro env c r e hh hs hd
    simp only [HmacKey.list, hh, hs, except_ok_bind, hd]
  · intro v fs hv
    simp only [ServiceAccount.from_env, hv]
  · intro v fs path hv hread
    simp only [ServiceAccount.from_env, hv, hread]

/-- Witness for **C4 (amended)**: each propagation clause and each
exception, instantiated at a concrete environment. -/
theorem c4_error_propagation_amended_witness :
    runOp (.error .transport) (.ok ⟨200, some .null⟩) decodeUnit =
      (.error .transport : Except Err Unit) ∧
    runOp (.ok ()) (.error .transport) decodeUnit =
      (.error .transport : Except Err Unit) ∧
    runOp (.ok ()) (.ok ⟨200, none⟩) decodeUnit =
      (.error .decode : Except Err Unit) ∧
    runOp (.ok ())
      (.ok ⟨200, some (.obj
        [("error", .obj [("code", .num 404), ("message", .str "x")])])⟩)
      decodeUnit = (.error (.google ⟨404, "x", []⟩) : Except Err Unit) ∧
    HmacKey.list ⟨.ok (), fun _ => .ok ⟨200, none⟩⟩
      ⟨"tk", "pr", none, "cl"⟩ = .ok [] ∧
    ServiceAccount.from_env ⟨none, none⟩ ⟨fun _ => .missing⟩ =
      .err (.other "environment variable not found") ∧
    ServiceAccount.from_env ⟨none, some "gac.json"⟩ ⟨fun _ => .missing⟩ =
      .panic "SERVICE_ACCOUNT file not found" :=
  ⟨c4_error_propagation_amended.1 Unit decodeUnit .transport (.ok ⟨200, some .null⟩),
   c4_error_propagation_amended.2.1 Unit decodeUnit .transport,
   c4_error_propagation_amended.2.2.1 Unit decodeUnit ⟨200, none⟩ .decode rfl,
   c4_error_propagation_amended.2.2.2.1 Unit decodeUnit
     ⟨200, some (.obj
       [("error", .obj [("code", .num 404), ("message", .str "x")])])⟩
     ⟨404, "x", []⟩ rfl,
   c4_error_propagation_amended.2.2.2.2.1
     ⟨.ok (), fun _ => .ok ⟨200, none⟩⟩ ⟨"tk", "pr", none, "cl"⟩
     ⟨200, none⟩ .decode rfl rfl rfl,
   c4_error_propagation_amended.2.2.2.2.2.1 ⟨none, none⟩ ⟨fun _ => .missing⟩ rfl,
   c4_error_propagation_amended.2.2.2.2.2.2 ⟨none, some "gac.json"⟩
     ⟨fun _ => .missing⟩ "gac.json" rfl rfl⟩

/-- **C5.** A list response body that lacks the `items` key decodes to the
empty collection, and every list operation returns `Ok` of the empty
collection on such a body: the shared `ListResponse<T>` decoder defaults the
collection, and `HmacKey::list` reaches the same result through its
swallow-on-decode-failure branch (its local wrapper has no default). -/
theorem c5_missing_items_yields_empty :
    (∀ (T : Type) (dec : Json → Option T) (fields : List (String × Json)),
      jsonLookup "items" fields = none →
      decodeListResponse dec (.obj fields) = some ⟨[]⟩) ∧
    (∀ (env : Env) (bucket : String) (fields : List (String × Json))
        (status : Nat),
      env.headers = .ok () →
      env.send ⟨bucketAclUrl bucket, []⟩ = .ok ⟨status, some (.obj fields)⟩ →
      jsonLookup "items" fields = none →
      jsonLookup "error" fields = none →
      BucketAccessControl.list env bucket = .ok []) ∧
    (∀ (env : Env) (bucket object : String) (fields : List (String × Json))
        (status : Nat),
      env.headers = .ok () →
      env.send ⟨objectAclUrl bucket object, []⟩ =
        .ok ⟨status, some (.obj fields)⟩ →
      jsonLookup "items" fields = none →
      jsonLookup "error" fields = none →
      ObjectAccessControl.list env bucket object = .ok []) ∧
    (∀ (env : Env) (bucket : String) (fields : List (String × Json))
        (status : Nat),
      env.headers = .ok () →
      env.send ⟨defaultObjectAclUrl bucket, []⟩ =
        .ok ⟨status, some (.obj fields)⟩ →
      jsonLookup "items" fields = none →
      jsonLookup "error" fields = none →
      DefaultObjectAccessControl.list env bucket = .ok []) ∧
    (∀ (env : Env) (c : Client) (fields : List (String × Json))
        (status : Nat),
      env.headers = .ok () →
      env.send ⟨hmacKeysUrl c.project_id, []⟩ =
        .ok ⟨status, some (.obj fields)⟩ →
      jsonLookup "items" fields = none →
      jsonLookup "error" fields = none →
      HmacKey.list env c = .ok []) := by
  refine ⟨fun T dec fields h => decodeListResponse_no_items dec fields h,
          ?_, ?_, ?_, ?_⟩
  · intro env bucket fields status hh hs hitems herr
    have hdec : decodeGoogleResponse
        (decodeListResponse decodeBucketAccessControl) (.obj fields) =
        some (.success ⟨[]⟩) := by
      rw [decodeGoogleResponse_no_error_key _ _ herr,
          decodeListResponse_no_items _ _ hitems]
      rfl
    simp only [BucketAccessControl.list, runOp, hh, hs, except_ok_bind,
      responseJson, hdec, GoogleResponse.intoResult, Except.map]
  · intro env bucket object fields status hh hs hitems herr
    have hdec : decodeGoogleResponse
        (decodeListResponse decodeObjectAccessControl) (.obj fields) =
        some (.success ⟨[]⟩) := by
      rw [decodeGoogleResponse_no_error_key _ _ herr,
          decodeListResponse_no_items _ _ hitems]
      rfl
    simp only [ObjectAccessControl.list, runOp, hh, hs, except_ok_bind,
      responseJson, hdec, GoogleResponse.intoResult, Except.map]
  · intro env bucket fields status hh hs hitems herr
    have hdec : decodeGoogleResponse
        (decodeListResponse decodeDefaultObjectAccessControl) (.obj fields) =
        some (.success ⟨[]⟩) := by
      rw [decodeGoogleResponse_no_error_key _ _ herr,
          decodeListResponse_no_items _ _ hitems]
      rfl
    simp only [DefaultObjectAccessControl.list, runOp, hh, hs, except_ok_bind,
      responseJson, hdec, GoogleResponse.intoResult, Except.map, List.map_nil]
  · intro env c fields status hh hs hitems herr
    have hdec : decodeGoogleResponse decodeHmacListResponse (.obj fields) =
        none := by
      rw [decodeGoogleResponse_no_error_key _ _ herr,
          decodeHmacListResponse_no_items _ hitems]
      rfl
    simp only [HmacKey.list, hh, hs, except_ok_bind, responseJson, hdec]

/-- Witness for **C5**: every list operation evaluated on the itemless body
`{"kind": …}` returns the empty list. -/
theorem c5_missing_items_yields_empty_witness :
    decodeListResponse decodeBucketAccessControl
      (.obj [("kind", .str "storage#bucketAccessControls")]) = some ⟨[]⟩ ∧
    BucketAccessControl.list
      ⟨.ok (), fun _ =>
        .ok ⟨200, some (.obj [("kind", .str "storage#bucketAccessControls")])⟩⟩
      "bkt" = .ok [] ∧
    ObjectAccessControl.list
      ⟨.ok (), fun _ =>
        .ok ⟨200, some (.obj [("kind", .str "storage#objectAccessControls")])⟩⟩
      "bkt" "obj" = .ok [] ∧
    DefaultObjectAccessControl.list
      ⟨.ok (), fun _ =>
        .ok ⟨200, some (.obj [("kind", .str "storage#objectAccessControls")])⟩⟩
      "bkt" = .ok [] ∧
    HmacKey.list
      ⟨.ok (), fun _ =>
        .ok ⟨204, some (.obj [("kind", .str "storage#hmacKeysMetadata")])⟩⟩
      ⟨"tkn", "prj", none, "rq"⟩ = .ok [] :=
  ⟨c5_missing_items_yields_empty.1 BucketAccessControl
     decodeBucketAccessControl
     [("kind", .str "storage#bucketAccessControls")] rfl,
   c5_missing_items_yields_empty.2.1 _ "bkt"
     [("kind", .str "storage#bucketAccessControls")] 200 rfl rfl rfl rfl,
   c5_missing_items_yields_empty.2.2.1 _ "bkt" "obj"
     [("kind", .str "storage#objectAccessControls")] 200 rfl rfl rfl rfl,
   c5_missing_items_yields_empty.2.2.2.1 _ "bkt"
     [("kind", .str "storage#objectAccessControls")] 200 rfl rfl rfl rfl,
   c5_missing_items_yields_empty.2.2.2.2 _ ⟨"tkn", "prj", none, "rq"⟩
     [("kind", .str "storage#hmacKeysMetadata")] 204 rfl rfl rfl rfl⟩

/-- **C6.** Every `DefaultObjectAccessControl` returned successfully from
`create`, `read`, or `list` carries the caller-supplied bucket name in its
`bucket` field, whatever the vendor response contained. -/
theorem c6_doac_bucket_injection :
    (∀ (env : Env) (bucket : String) (newAcl : NewDefaultObjectAccessControl)
        (acl : DefaultObjectAccessControl),
      DefaultObjectAccessControl.create env bucket newAcl = .ok acl →
      acl.bucket = bucket) ∧
    (∀ (env : Env) (bucket : String) (entity : Entity)
        (acl : DefaultObjectAccessControl),
      DefaultObjectAccessControl.read env bucket entity = .ok acl →
      acl.bucket = bucket) ∧
    (∀ (env : Env) (bucket : String)
        (acls : List DefaultObjectAccessControl),
      DefaultObjectAccessControl.list env bucket = .ok acls →
      ∀ acl ∈ acls, acl.bucket = bucket) := by
  refine ⟨?_, ?_, ?_⟩
  · intro env bucket newAcl acl h
    unfold DefaultObjectAccessControl.create at h
    cases hr : runOp env.headers (env.send ⟨defaultObjectAclUrl bucket, []⟩)
        decodeDefaultObjectAccessControl with
    | error e =>
      rw [hr] at h
      exact Except.noConfusion h
    | ok s =>
      rw [hr] at h
      have h2 : (Except.ok { s with bucket := bucket } :
          Except Err DefaultObjectAccessControl) = .ok acl := h
      injection h2 with h2
      rw [← h2]
  · intro env bucket entity acl h
    unfold DefaultObjectAccessControl.read at h
    cases hr : runOp env.headers
        (env.send ⟨defaultObjectAclEntityUrl bucket entity, []⟩)
        decodeDefaultObjectAccessControl with
    | error e =>
      rw [hr] at h
      exact Except.noConfusion h
    | ok s =>
      rw [hr] at h
      have h2 : (Except.ok { s with bucket := bucket } :
          Except Err DefaultObjectAccessControl) = .ok acl := h
      injection h2 with h2
      rw [← h2]
  · intro env bucket acls h
    unfold DefaultObjectAccessControl.list at h
    cases hr : runOp env.headers (env.send ⟨defaultObjectAclUrl bucket, []⟩)
        (decodeListResponse decodeDefaultObjectAccessControl) with
    | error e =>
      rw [hr] at h
      exact Except.noConfusion h
    | ok s =>
      rw [hr] at h
      have h2 : (Except.ok
          (s.items.map (fun item => { item with bucket := bucket })) :
          Except Err (List DefaultObjectAccessControl)) = .ok acls := h
      injection h2 with h2
      intro acl hmem
      rw [← h2] at hmem
      obtain ⟨item, _, hi⟩ := List.mem_map.mp hmem
      rw [← hi]

/-- Witness for **C6**: a create on bucket `"bkt"` whose vendor response
omits the bucket field returns a record whose bucket field is `"bkt"`. -/
theorem c6_doac_bucket_injection_witness :
    DefaultObjectAccessControl.create
      ⟨.ok (), fun _ => .ok ⟨200, some (.obj
        [("kind", .str "storage#objectAccessControl"),
         ("entity", .str "allUsers"),
         ("role", .str "READER"),
         ("etag", .str "CAE=")])⟩⟩
      "bkt" ⟨.allUsers, .reader⟩ =
      .ok ⟨"storage#objectAccessControl", .allUsers, .reader, none, none,
           none, none, "CAE=", "bkt"⟩ ∧
    (⟨"storage#objectAccessControl", .allUsers, .reader, none, none, none,
      none, "CAE=", "bkt"⟩ : DefaultObjectAccessControl).bucket = "bkt" :=
  ⟨rfl,
   c6_doac_bucket_injection.1
     ⟨.ok (), fun _ => .ok ⟨200, some (.obj
       [("kind", .str "storage#objectAccessControl"),
        ("entity", .str "allUsers"),
        ("role", .str "READER"),
        ("etag", .str "CAE=")])⟩⟩
     "bkt" ⟨.allUsers, .reader⟩
     ⟨"storage#objectAccessControl", .allUsers, .reader, none, none, none,
      none, "CAE=", "bkt"⟩ rfl⟩

/-- **C7, counterexample.** The claim that no operation discriminates on
the HTTP status alone fails for `BucketAccessControl::delete`: a 200
response whose body is a schema-conforming error envelope still yields
`Ok(())`, because that operation returns success for any 2xx status without
reading the body. -/
theorem c7_counterexample :
    decodeErrorEnvelope (.obj [("error", .obj
      [("code", .num 404), ("message", .str "not found")])]) =
      some ⟨404, "not found", []⟩ ∧
    BucketAccessControl.delete
      ⟨.ok (), fun _ => .ok ⟨200, some (.obj [("error", .obj
        [("code", .num 404), ("message", .str "not found")])])⟩⟩
      ⟨"storage#bucketAccessControl", "id", "link", "bkt", .allUsers,
       .reader, none, none, none, none, "etag"⟩ = .ok () :=
  ⟨rfl, rfl⟩

/-- **C7, amended.** Every operation built on the shared pipeline decides
success or error purely by structural inspection of the decoded body — the
result is invariant under the HTTP status, a 200 response with an
error-enveloped body yields an error, and a non-2xx response with a
success-shaped body yields a success. The one exception is
`BucketAccessControl::delete`, which branches on the status: any 2xx
response yields `Ok(())` regardless of the body. -/
theorem c7_status_blind_except_bucket_acl_delete :
    (∀ (T : Type) (dec : Json → Option T) (hdr : Except Err Unit)
        (s1 s2 : Nat) (b : Option Json),
      runOp hdr (.ok ⟨s1, b⟩) dec = runOp hdr (.ok ⟨s2, b⟩) dec) ∧
    (∀ (T : Type) (dec : Json → Option T) (j : Json) (e : ErrorDetail),
      decodeErrorEnvelope j = some e →
      runOp (.ok ()) (.ok ⟨200, some j⟩) dec = .error (.google e)) ∧
    (∀ (T : Type) (dec : Json → Option T) (j : Json) (v : T) (status : Nat),
      decodeErrorEnvelope j = none → dec j = some v →
      runOp (.ok ()) (.ok ⟨status, some j⟩) dec = .ok v) ∧
    (∀ (env : Env) (acl : BucketAccessControl) (status : Nat)
        (b : Option Json),
      env.headers = .ok () →
      env.send ⟨bucketAclEntityUrl acl.bucket acl.entity, []⟩ =
        .ok ⟨status, b⟩ →
      isSuccessStatus status = true →
      BucketAccessControl.delete env acl = .ok ()) := by
  refine ⟨fun T dec hdr s1 s2 b => rfl, ?_, ?_, ?_⟩
  · intro T dec j e he
    have hdec : decodeGoogleResponse dec j = some (.error e) := by
      unfold decodeGoogleResponse
      rw [he]
    simp only [runOp, except_ok_bind, responseJson, hdec,
      GoogleResponse.intoResult]
  · intro T dec j v status he hv
    have hdec : decodeGoogleResponse dec j = some (.success v) := by
      unfold decodeGoogleResponse
      rw [he, hv]
      rfl
    simp only [runOp, except_ok_bind, responseJson, hdec,
      GoogleResponse.intoResult]
  · intro env acl status b hh hs hsucc
    simp only [BucketAccessControl.delete, hh, hs, except_ok_bind]
    simp [hsucc]

/-- Witness for **C7 (amended)**: status invariance, a 200-with-error-body
error, a 500-with-success-body success, and a body-blind 2xx delete, each at
a concrete input. -/
theorem c7_status_blind_except_bucket_acl_delete_witness :
    runOp (.error .auth) (.ok ⟨200, some .null⟩) decodeUnit =
      runOp (.error .auth) (.ok ⟨500, some .null⟩) decodeUnit ∧
    runOp (.ok ()) (.ok ⟨200, some (.obj [("error", .obj
      [("code", .num 409), ("message", .str "conflict")])])⟩) decodeUnit =
      (.error (.google ⟨409, "conflict", []⟩) : Except Err Unit) ∧
    runOp (.ok ()) (.ok ⟨500, some .null⟩) decodeUnit =
      (.ok () : Except Err Unit) ∧
    BucketAccessControl.delete ⟨.ok (), fun _ => .ok ⟨204, none⟩⟩
      ⟨"storage#bucketAccessControl", "id2", "link2", "bkt2",
       .allAuthenticatedUsers, .owner, none, none, none, none, "etag2"⟩ =
      .ok () :=
  ⟨c7_status_blind_except_bucket_acl_delete.1 Unit decodeUnit
     (.error .auth) 200 500 (some .null),
   c7_status_blind_except_bucket_acl_delete.2.1 Unit decodeUnit
     (.obj [("error", .obj [("code", .num 409), ("message", .str "conflict")])])
     ⟨409, "conflict", []⟩ rfl,
   c7_status_blind_except_bucket_acl_delete.2.2.1 Unit decodeUnit
     .null () 500 rfl rfl,
   c7_status_blind_except_bucket_acl_delete.2.2.2
     ⟨.ok (), fun _ => .ok ⟨204, none⟩⟩
     ⟨"storage#bucketAccessControl", "id2", "link2", "bkt2",
      .allAuthenticatedUsers, .owner, none, none, none, none, "etag2"⟩
     204 none rfl rfl rfl⟩

/-- Whether a `from_env` outcome is a returned error. -/
def FromEnvOutcome.isErr : FromEnvOutcome → Bool
  | .err _ => true
  | _ => false

/-- **C8, counterexample.** With `SERVICE_ACCOUNT` set but the file absent,
`ServiceAccount::from_env` panics (`expect`) instead of returning a
configuration error: the outcome is a panic and not an error value. -/
theorem c8_counterexample :
    ServiceAccount.from_env ⟨some "/etc/sa.json", none⟩ ⟨fun _ => .missing⟩ =
      .panic "SERVICE_ACCOUNT file not found" ∧
    (ServiceAccount.from_env ⟨some "/etc/sa.json", none⟩
      ⟨fun _ => .missing⟩).isErr = false :=
  ⟨rfl, rfl⟩

/-- **C8, amended.** When neither `SERVICE_ACCOUNT` nor
`GOOGLE_APPLICATION_CREDENTIALS` is set, credential resolution returns an
error to the caller; but when a variable is set and the configured file is
absent, does not parse as a service-account document, or carries a `type`
other than `service_account`, the process panics instead of returning an
error. A parseable document of the right type is returned successfully. -/
theorem c8_from_env_amended :
    (∀ fs : Fs, ServiceAccount.from_env ⟨none, none⟩ fs =
      .err (.other "environment variable not found")) ∧
    (∀ (v : EnvVars) (fs : Fs) (path : String),
      v.credPath = some path → fs.read path = .missing →
      ServiceAccount.from_env v fs = .panic "SERVICE_ACCOUNT file not found") ∧
    (∀ (v : EnvVars) (fs : Fs) (path : String),
      v.credPath = some path → fs.read path = .invalid →
      ServiceAccount.from_env v fs = .panic "service account file not valid") ∧
    (∀ (v : EnvVars) (fs : Fs) (path : String) (j : Json),
      v.credPath = some path → fs.read path = .json j →
      decodeServiceAccount j = none →
      ServiceAccount.from_env v fs = .panic "service account file not valid") ∧
    (∀ (v : EnvVars) (fs : Fs) (path : String) (j : Json)
        (a : ServiceAccount),
      v.credPath = some path → fs.read path = .json j →
      decodeServiceAccount j = some a →
      (a.type_ == "service_account") = false →
      ServiceAccount.from_env v fs =
        .panic "type parameter of SERVICE_ACCOUNT variable is not service_account") ∧
    (∀ (v : EnvVars) (fs : Fs) (path : String) (j : Json)
        (a : ServiceAccount),
      v.credPath = some path → fs.read path = .json j →
      decodeServiceAccount j = some a →
      (a.type_ == "service_account") = true →
      ServiceAccount.from_env v fs = .ok a) := by
  refine ⟨fun fs => rfl, ?_, ?_, ?_, ?_, ?_⟩
  · intro v fs path hv hread
    simp only [ServiceAccount.from_env, hv, hread]
  · intro v fs path hv hread
    simp only [ServiceAccount.from_env, hv, hread]
  · intro v fs path j hv hread hdec
    simp only [ServiceAccount.from_env, hv, hread, hdec]
  · intro v fs path j a hv hread hdec hty
    simp only [ServiceAccount.from_env, hv, hread, hdec, hty, Bool.false_eq_true,
      if_false]
  · intro v fs path j a hv hread hdec hty
    simp only [ServiceAccount.from_env, hv, hread, hdec, hty, if_true]

/-- Witness for **C8 (amended)**: every branch of credential resolution at a
concrete environment and filesystem. -/
theorem c8_from_env_amended_witness :
    ServiceAccount.from_env ⟨none, none⟩ ⟨fun _ => .missing⟩ =
      .err (.other "environment variable not found") ∧
    ServiceAccount.from_env ⟨some "a.json", none⟩ ⟨fun _ => .missing⟩ =
      .panic "SERVICE_ACCOUNT file not found" ∧
    ServiceAccount.from_env ⟨some "a.json", none⟩ ⟨fun _ => .invalid⟩ =
      .panic "service account file not valid" ∧
    ServiceAccount.from_env ⟨some "a.json", none⟩ ⟨fun _ => .json .null⟩ =
      .panic "service account file not valid" ∧
    ServiceAccount.from_env ⟨some "a.json", none⟩
      ⟨fun _ => .json (.obj
        [("type", .str "user"), ("project_id", .str "p"),
         ("private_key_id", .str "k"), ("private_key", .str "PK"),
         ("client_email", .str "e"), ("client_id", .str "c"),
         ("auth_uri", .str "au"), ("token_uri", .str "tu"),
         ("auth_provider_x509_cert_url", .str "ap"),
         ("client_x509_cert_url", .str "cc")])⟩ =
      .panic "type parameter of SERVICE_ACCOUNT variable is not service_account" ∧
    ServiceAccount.from_env ⟨some "a.json", none⟩
      ⟨fun _ => .json (.obj
        [("type", .str "service_account"), ("project_id", .str "p"),
         ("private_key_id", .str "k"), ("private_key", .str "PK"),
         ("client_email", .str "e"), ("client_id", .str "c"),
         ("auth_uri", .str "au"), ("token_uri", .str "tu"),
         ("auth_provider_x509_cert_url", .str "ap"),
         ("client_x509_cert_url", .str "cc")])⟩ =
      .ok ⟨"service_account", "p", "k", "PK", "e", "c", "au", "tu", "ap", "cc"⟩ :=
  ⟨c8_from_env_amended.1 ⟨fun _ => .missing⟩,
   c8_from_env_amended.2.1 ⟨some "a.json", none⟩ ⟨fun _ => .missing⟩
     "a.json" rfl rfl,
   c8_from_env_amended.2.2.1 ⟨some "a.json", none⟩ ⟨fun _ => .invalid⟩
     "a.json" rfl rfl,
   c8_from_env_amended.2.2.2.1 ⟨some "a.json", none⟩ ⟨fun _ => .json .null⟩
     "a.json" .null rfl rfl rfl,
   c8_from_env_amended.2.2.2.2.1 ⟨some "a.json", none⟩
     ⟨fun _ => .json (.obj
       [("type", .str "user"), ("project_id", .str "p"),
        ("private_key_id", .str "k"), ("private_key", .str "PK"),
        ("client_email", .str "e"), ("client_id", .str "c"),
        ("auth_uri", .str "au"), ("token_uri", .str "tu"),
        ("auth_provider_x509_cert_url", .str "ap"),
        ("client_x509_cert_url", .str "cc")])⟩
     "a.json" (.obj
       [("type", .str "user"), ("project_id", .str "p"),
        ("private_key_id", .str "k"), ("private_key", .str "PK"),
        ("client_email", .str "e"), ("client_id", .str "c"),
        ("auth_uri", .str "au"), ("token_uri", .str "tu"),
        ("auth_provider_x509_cert_url", .str "ap"),
        ("client_x509_cert_url", .str "cc")])
     ⟨"user", "p", "k", "PK", "e", "c", "au", "tu", "ap", "cc"⟩
     rfl rfl rfl rfl,
   c8_from_env_amended.2.2.2.2.2 ⟨some "a.json", none⟩
     ⟨fun _ => .json (.obj
       [("type", .str "service_account"), ("project_id", .str "p"),
        ("private_key_id", .str "k"), ("private_key", .str "PK"),
        ("client_email", .str "e"), ("client_id", .str "c"),
        ("auth_uri", .str "au"), ("token_uri", .str "tu"),
        ("auth_provider_x509_cert_url", .str "ap"),
        ("client_x509_cert_url", .str "cc")])⟩
     "a.json" (.obj
       [("type", .str "service_account"), ("project_id", .str "p"),
        ("private_key_id", .str "k"), ("private_key", .str "PK"),
        ("client_email", .str "e"), ("client_id", .str "c"),
        ("auth_uri", .str "au"), ("token_uri", .str "tu"),
        ("auth_provider_x509_cert_url", .str "ap"),
        ("client_x509_cert_url", .str "cc")])
     ⟨"service_account", "p", "k", "PK", "e", "c", "au", "tu", "ap", "cc"⟩
     rfl rfl rfl rfl⟩

/-- **C9.** `HmacKey::create` with no service account on the client returns
`Error::MissingServiceAccount` without consulting the transport at all (the
result is the same under every environment, so no URL is built and no
request sent); with a service account present, the request it sends carries
that account's `client_email` as the `serviceAccountEmail` query
parameter. -/
theorem c9_hmac_create_requires_service_account :
    (∀ (env env2 : Env) (c : Client), c.service_account = none →
      HmacKey.create env c = .error .missingServiceAccount ∧
      HmacKey.create env c = HmacKey.create env2 c) ∧
    (∀ (env : Env) (c : Client) (s : ServiceAccount),
      c.service_account = some s →
      HmacKey.create env c =
        runOp env.headers
          (env.send ⟨hmacKeysUrl c.project_id,
            [("serviceAccountEmail", s.client_email)]⟩)
          decodeHmacKey) := by
  constructor
  · intro env env2 c h
    unfold HmacKey.create
    rw [h]
    exact ⟨rfl, rfl⟩
  · intro env c s h
    unfold HmacKey.create HmacKey.createRequest
    rw [h]

/-- Witness for **C9**: a client without a service account fails identically
under two different environments; one with a service account sends the
collection URL with its email as the query parameter. -/
theorem c9_hmac_create_requires_service_account_witness :
    HmacKey.create ⟨.ok (), fun _ => .ok ⟨200, none⟩⟩
      ⟨"tok", "proj", none, "rq"⟩ = .error .missingServiceAccount ∧
    HmacKey.create ⟨.ok (), fun _ => .ok ⟨200, none⟩⟩
      ⟨"tok", "proj", none, "rq"⟩ =
      HmacKey.create ⟨.error .transport, fun _ => .error .transport⟩
      ⟨"tok", "proj", none, "rq"⟩ ∧
    HmacKey.create ⟨.ok (), fun _ => .ok ⟨200, none⟩⟩
      ⟨"tok", "proj",
       some ⟨"service_account", "p", "k", "PK", "mail@x.test", "c", "au",
             "tu", "ap", "cc"⟩, "rq"⟩ =
      runOp (Env.headers ⟨.ok (), fun _ => .ok ⟨200, none⟩⟩)
        (Env.send ⟨.ok (), fun _ => .ok ⟨200, none⟩⟩
          ⟨hmacKeysUrl "proj", [("serviceAccountEmail", "mail@x.test")]⟩)
        decodeHmacKey :=
  ⟨(c9_hmac_create_requires_service_account.1
      ⟨.ok (), fun _ => .ok ⟨200, none⟩⟩
      ⟨.error .transport, fun _ => .error .transport⟩
      ⟨"tok", "proj", none, "rq"⟩ rfl).1,
   (c9_hmac_create_requires_service_account.1
      ⟨.ok (), fun _ => .ok ⟨200, none⟩⟩
      ⟨.error .transport, fun _ => .error .transport⟩
      ⟨"tok", "proj", none, "rq"⟩ rfl).2,
   c9_hmac_create_requires_service_account.2
     ⟨.ok (), fun _ => .ok ⟨200, none⟩⟩
     ⟨"tok", "proj",
      some ⟨"service_account", "p", "k", "PK", "mail@x.test", "c", "au",
            "tu", "ap", "cc"⟩, "rq"⟩
     ⟨"service_account", "p", "k", "PK", "mail@x.test", "c", "au", "tu",
      "ap", "cc"⟩ rfl⟩

/-- **C10.** The `Debug` renderings of `Client` and `ServiceAccount` are
independent of the secret material: two clients differing only in their
token render identically, as do two service accounts differing only in their
private key — the secret position always holds the fixed placeholder. -/
theorem c10_debug_independent_of_secrets :
    (∀ c1 c2 : Client, c1.project_id = c2.project_id →
      c1.service_account = c2.service_account →
      c1.http_client = c2.http_client →
      Client.debugFmt c1 = Client.debugFmt c2) ∧
    (∀ a1 a2 : ServiceAccount, a1.type_ = a2.type_ →
      a1.project_id = a2.project_id →
      a1.private_key_id = a2.private_key_id →
      a1.client_email = a2.client_email →
      a1.client_id = a2.client_id →
      a1.auth_uri = a2.auth_uri →
      a1.token_uri = a2.token_uri →
      a1.auth_provider_x509_cert_url = a2.auth_provider_x509_cert_url →
      a1.client_x509_cert_url = a2.client_x509_cert_url →
      ServiceAccount.debugFmt a1 = ServiceAccount.debugFmt a2) := by
  constructor
  · intro c1 c2 h1 h2 h3
    simp only [Client.debugFmt, h1, h2, h3]
  · intro a1 a2 h1 h2 h3 h4 h5 h6 h7 h8 h9
    simp only [ServiceAccount.debugFmt, h1, h2, h3, h4, h5, h6, h7, h8, h9]

/-- Witness for **C10**: two clients differing only in their token and two
service accounts differing only in their private key render identically. -/
theorem c10_debug_independent_of_secrets_witness :
    Client.debugFmt ⟨"secret-token-A", "proj", none, "rq"⟩ =
      Client.debugFmt ⟨"secret-token-B", "proj", none, "rq"⟩ ∧
    ServiceAccount.debugFmt
      ⟨"service_account", "p", "k", "PRIVATE-A", "e", "c", "au", "tu",
       "ap", "cc"⟩ =
      ServiceAccount.debugFmt
      ⟨"service_account", "p", "k", "PRIVATE-B", "e", "c", "au", "tu",
       "ap", "cc"⟩ :=
  ⟨c10_debug_independent_of_secrets.1
     ⟨"secret-token-A", "proj", none, "rq"⟩
     ⟨"secret-token-B", "proj", none, "rq"⟩ rfl rfl rfl,
   c10_debug_independent_of_secrets.2
     ⟨"service_account", "p", "k", "PRIVATE-A", "e", "c", "au", "tu",
      "ap", "cc"⟩
     ⟨"service_account", "p", "k", "PRIVATE-B", "e", "c", "au", "tu",
      "ap", "cc"⟩ rfl rfl rfl rfl rfl rfl rfl rfl rfl⟩

end CloudStorage
